import Mathlib

/-!
# Verification of the weaviate REST batch-ingestion coordinator

Shallow embedding of the core handler logic of `restapi/configure_weaviate.go`
(`src/unnamed/part_000`): the batch-create handlers for actions and things,
the per-item request handlers, the response-field resolver, the limit
computation, the P2P genesis peer-update handler, the GraphQL handlers, and
the schema-update callback installed in `configureServer`.

Modelling conventions:
* Go `*string` / nilable fields become `Option`; the Go zero value `""` of a
  `strfmt.UUID` is kept as the empty string.
* Environment effects (validation outcome, connector write outcome, generated
  UUIDs, clock, peer-list fetch, GraphQL resolution) are oracle parameters.
* Goroutine spawning, lock-step registration, connector writes and delayed
  unlocks are recorded as explicit event traces in the order the source
  performs them.
* The result channel of a batch handler is modelled by the list of
  `(index, response)` pairs the spawned tasks deliver; an arbitrary
  completion order is an arbitrary permutation of the per-item results.
* JSON marshalling of a GraphQL result is modelled as always succeeding
  (its failure branches produce a fixed 422 payload and are irrelevant to
  the claims below).
-/

namespace Weaviate

/-- Status enum of `models.ActionsGetResponseAO1Result` /
`models.ThingsGetResponseAO1Result`. -/
inductive ResultStatus where
  | SUCCESS
  | PENDING
  | FAILED
deriving DecidableEq, Repr

/-- `createErrorResponseObject`: builds an error response carrying the given
messages, one item per message. -/
def createErrorResponseObject (messages : List String) : List String :=
  messages.foldl (fun er message => er ++ [message]) []

/-- `models.SingleRef` as built for the key reference. -/
structure SingleRef where
  locationURL : String
  nrDollarCref : String
  type : String
deriving DecidableEq, Repr

/-- `connutils.RefTypeKey` (opaque constant outside src). -/
def refTypeKey : String := "key"

/-- The fields of `models.ActionCreate` used by the handler. The `schema`
payload (`interface{}` in Go) is modelled as an opaque string blob. -/
structure ActionCreate where
  atContext : String
  atClass : String
  schemaBlob : String
deriving DecidableEq, Repr

/-- The fields of `models.ThingCreate` used by the handler. -/
structure ThingCreate where
  atContext : String
  atClass : String
  schemaBlob : String
deriving DecidableEq, Repr

/-- The fields of `models.Action` the handler assigns. Unassigned Go fields
stay at their zero values (`""`, `0`, `nil`). -/
structure Action where
  atContext : String
  atClass : String
  schemaBlob : String
  creationTimeUnix : Int
  lastUpdateTimeUnix : Int
  key : Option SingleRef
deriving DecidableEq, Repr

/-- The fields of `models.Thing` the handler assigns. -/
structure Thing where
  atContext : String
  atClass : String
  schemaBlob : String
  creationTimeUnix : Int
  lastUpdateTimeUnix : Int
  key : Option SingleRef
deriving DecidableEq, Repr

/-- `models.ActionsGetResponseAO1Result`: a nilable status pointer and a
nilable error list. -/
structure ActionsGetResponseResult where
  status : Option ResultStatus
  errors : Option (List String)
deriving DecidableEq, Repr

/-- `models.ThingsGetResponseAO1Result`. -/
structure ThingsGetResponseResult where
  status : Option ResultStatus
  errors : Option (List String)
deriving DecidableEq, Repr

/-- `models.ActionsGetResponse`: the action, its id (zero value `""` when the
`actionid` field is not kept), and the result object. -/
structure ActionsGetResponse where
  action : Action
  actionID : String
  result : ActionsGetResponseResult
deriving DecidableEq, Repr

/-- `models.ThingsGetResponse`. -/
structure ThingsGetResponse where
  thing : Thing
  thingID : String
  result : ThingsGetResponseResult
deriving DecidableEq, Repr

/-! ## Response-field resolution (`determineResponseFields`) -/

/-- Insertion into a Go `map[string]int` used as a string set: adding an
already-present key leaves the set unchanged. -/
def mapInsert (m : List String) (k : String) : List String :=
  if k ∈ m then m else m ++ [k]

/-- Deletion from a Go `map[string]int` used as a string set. -/
def mapDelete (m : List String) (k : String) : List String :=
  m.filter (· ≠ k)

/-- `strings.ToLower`, modelled character-wise (the inputs of interest are
ASCII field names). -/
def toLowerStr (s : String) : String :=
  ⟨s.data.map Char.toLower⟩

/-- `determineResponseFields`: starts from the fixed default field set
(`actionid` swapped for `thingid` on things batches); if a non-empty field
list is supplied it returns the defaults when some field lower-cases to
`"all"`, and otherwise the set of the supplied fields lower-cased. -/
def determineResponseFields (fields : List String) (isThingsCreate : Bool) :
    List String :=
  let fieldsToKeep :=
    ["@class", "schema", "creationtimeunix", "key", "actionid"]
  let fieldsToKeep :=
    if isThingsCreate then mapInsert (mapDelete fieldsToKeep "actionid") "thingid"
    else fieldsToKeep
  if fields.length > 0 then
    if fields.any (fun field => toLowerStr field = "all") then
      fieldsToKeep
    else
      fields.foldl (fun m field => mapInsert m (toLowerStr field)) []
  else
    fieldsToKeep

/-- The default field set the handler keeps when the caller requests
everything. -/
def defaultFields (isThingsCreate : Bool) : List String :=
  if isThingsCreate then ["@class", "schema", "creationtimeunix", "key", "thingid"]
  else ["@class", "schema", "creationtimeunix", "key", "actionid"]

/-! ## Limit computation (`getLimit`)

The Go source computes `int(math.Min(float64(maxResults), float64(limit)))`;
the `float64` round trip is the identity on the value range of interest
(`|v| < 2^53`), so the conversion pair is modelled as exact integer `min`. -/

/-- `getLimit`: the environment limit, overridden by the per-request
max-results parameter when present, capped at the environment limit. -/
def getLimit (envLimit : Int) (paramMaxResults : Option Int) : Int :=
  let maxResults :=
    match paramMaxResults with
    | some p => p
    | none => envLimit
  min maxResults envLimit

/-! ## P2P genesis peer update (`P2PWeaviateP2pGenesisUpdateHandler`) -/

/-- One entry of the peer-update request body. -/
structure GenesisPeer where
  id : String
  name : String
  uri : String
  schemaHash : String
deriving DecidableEq, Repr

/-- `peers.Peer` as built by the handler. -/
structure Peer where
  id : String
  name : String
  uri : String
  schemaHash : String
deriving DecidableEq, Repr

/-- Converts one request entry into an internal peer. -/
def genesisPeerToPeer (genesisPeer : GenesisPeer) : Peer :=
  { id := genesisPeer.id
    name := genesisPeer.name
    uri := genesisPeer.uri
    schemaHash := genesisPeer.schemaHash }

/-- Responses of the peer-update handler. -/
inductive GenesisUpdateResponse where
  | ok
  | internalServerError
deriving DecidableEq, Repr

/-- Outcome of the peer-update handler: the argument lists of the
`UpdatePeers` calls it performed, and the HTTP response. -/
structure GenesisUpdateOutcome where
  updatePeersCalls : List (List Peer)
  response : GenesisUpdateResponse
deriving Repr

/-- `P2PWeaviateP2pGenesisUpdateHandler`: converts every received peer entry,
calls `network.UpdatePeers` once with all of them, and answers OK exactly
when that call returns no error. `updatePeers` is the oracle for
`network.UpdatePeers`; `some e` is a returned error. -/
def p2pWeaviateP2pGenesisUpdateHandler
    (updatePeers : List Peer → Option String)
    (paramsPeers : List GenesisPeer) : GenesisUpdateOutcome :=
  let newPeers :=
    paramsPeers.foldl (fun acc genesisPeer => acc ++ [genesisPeerToPeer genesisPeer]) []
  let err := updatePeers newPeers
  { updatePeersCalls := [newPeers]
    response :=
      match err with
      | none => GenesisUpdateResponse.ok
      | some _ => GenesisUpdateResponse.internalServerError }

/-! ## Per-item batch create handlers

`handleBatchedActionsCreateRequest` / `handleBatchedThingsCreateRequest`,
one goroutine per batch item. Oracles: `validatedErr` is the outcome of
`validation.ValidateActionBody` / `ValidateThingBody` (`some e` = failure),
`writeErr` the outcome of `DBConnector.AddAction` / `AddThing`, `uuid` the
generated UUID, `url` the host address, `keyID` the principal's key id and
`now` the clock. Effects on the delayed lock, connector and scheduler are
recorded as event traces in source order. -/

/-- Observable effect of a per-item handler. -/
inductive BatchEvent where
  | incSteps
  | spawnAsync
  | connectorWrite
  | delayedUnlock
deriving DecidableEq, Repr

/-- Trace of one per-item goroutine: the response object it delivers to the
result channel, the events on the request goroutine in source order, the
events of the spawned asynchronous task (none when no task is spawned,
in-task order otherwise), and the response object after the asynchronous
task has mutated it (identical to `response` when there is none). -/
structure BatchedActionsCreateItemTrace where
  response : ActionsGetResponse
  syncEvents : List BatchEvent
  asyncEvents : Option (List BatchEvent)
  finalResponse : ActionsGetResponse
deriving DecidableEq, Repr

/-- Trace of one per-item things goroutine. -/
structure BatchedThingsCreateItemTrace where
  response : ThingsGetResponse
  syncEvents : List BatchEvent
  asyncEvents : Option (List BatchEvent)
  finalResponse : ThingsGetResponse
deriving DecidableEq, Repr

/-- `handleBatchedActionsCreateRequest`: builds the action and response
object keeping only the requested fields, validates, then — on success —
either writes synchronously (status FAILED on connector error, otherwise
the status pointer stays nil) or registers a pending step, reports PENDING
and spawns the write on an asynchronous task that unlocks the delayed lock
when done and overwrites the result to FAILED on connector error. -/
def handleBatchedActionsCreateRequest
    (batchedRequest : ActionCreate) (fieldsToKeep : List String)
    (uuid url keyID : String) (now : Int)
    (validatedErr : Option String) (writeErr : Option String)
    (async : Bool) : BatchedActionsCreateItemTrace :=
  let keyRef : SingleRef :=
    { locationURL := url, nrDollarCref := keyID, type := refTypeKey }
  let action : Action :=
    { atContext := batchedRequest.atContext
      lastUpdateTimeUnix := 0
      atClass := if "@class" ∈ fieldsToKeep then batchedRequest.atClass else ""
      schemaBlob := if "schema" ∈ fieldsToKeep then batchedRequest.schemaBlob else ""
      creationTimeUnix := if "creationtimeunix" ∈ fieldsToKeep then now else 0
      key := if "key" ∈ fieldsToKeep then some keyRef else none }
  let responseObject : ActionsGetResponse :=
    { action := action
      actionID := if "actionid" ∈ fieldsToKeep then uuid else ""
      result := { status := none, errors := none } }
  match validatedErr with
  | some e =>
    let responseObject :=
      { responseObject with
        result := { status := some ResultStatus.FAILED
                    errors := some (createErrorResponseObject [e]) } }
    { response := responseObject
      syncEvents := []
      asyncEvents := none
      finalResponse := responseObject }
  | none =>
    if async then
      let responseObject :=
        { responseObject with
          result := { responseObject.result with status := some ResultStatus.PENDING } }
      let finalResponse :=
        match writeErr with
        | some e =>
          { responseObject with
            result := { status := some ResultStatus.FAILED
                        errors := some (createErrorResponseObject [e]) } }
        | none => responseObject
      { response := responseObject
        syncEvents := [BatchEvent.incSteps, BatchEvent.spawnAsync]
        asyncEvents := some [BatchEvent.connectorWrite, BatchEvent.delayedUnlock]
        finalResponse := finalResponse }
    else
      match writeErr with
      | some e =>
        let responseObject :=
          { responseObject with
            result := { status := some ResultStatus.FAILED
                        errors := some (createErrorResponseObject [e]) } }
        { response := responseObject
          syncEvents := [BatchEvent.connectorWrite]
          asyncEvents := none
          finalResponse := responseObject }
      | none =>
        { response := responseObject
          syncEvents := [BatchEvent.connectorWrite]
          asyncEvents := none
          finalResponse := responseObject }

/-- `handleBatchedThingsCreateRequest`: identical control flow for things. -/
def handleBatchedThingsCreateRequest
    (batchedRequest : ThingCreate) (fieldsToKeep : List String)
    (uuid url keyID : String) (now : Int)
    (validatedErr : Option String) (writeErr : Option String)
    (async : Bool) : BatchedThingsCreateItemTrace :=
  let keyRef : SingleRef :=
    { locationURL := url, nrDollarCref := keyID, type := refTypeKey }
  let thing : Thing :=
    { atContext := batchedRequest.atContext
      lastUpdateTimeUnix := 0
      atClass := if "@class" ∈ fieldsToKeep then batchedRequest.atClass else ""
      schemaBlob := if "schema" ∈ fieldsToKeep then batchedRequest.schemaBlob else ""
      creationTimeUnix := if "creationtimeunix" ∈ fieldsToKeep then now else 0
      key := if "key" ∈ fieldsToKeep then some keyRef else none }
  let responseObject : ThingsGetResponse :=
    { thing := thing
      thingID := if "thingid" ∈ fieldsToKeep then uuid else ""
      result := { status := none, errors := none } }
  match validatedErr with
  | some e =>
    let responseObject :=
      { responseObject with
        result := { status := some ResultStatus.FAILED
                    errors := some (createErrorResponseObject [e]) } }
    { response := responseObject
      syncEvents := []
      asyncEvents := none
      finalResponse := responseObject }
  | none =>
    if async then
      let responseObject :=
        { responseObject with
          result := { responseObject.result with status := some ResultStatus.PENDING } }
      let finalResponse :=
        match writeErr with
        | some e =>
          { responseObject with
            result := { status := some ResultStatus.FAILED
                        errors := some (createErrorResponseObject [e]) } }
        | none => responseObject
      { response := responseObject
        syncEvents := [BatchEvent.incSteps, BatchEvent.spawnAsync]
        asyncEvents := some [BatchEvent.connectorWrite, BatchEvent.delayedUnlock]
        finalResponse := finalResponse }
    else
      match writeErr with
      | some e =>
        let responseObject :=
          { responseObject with
            result := { status := some ResultStatus.FAILED
                        errors := some (createErrorResponseObject [e]) } }
        { response := responseObject
          syncEvents := [BatchEvent.connectorWrite]
          asyncEvents := none
          finalResponse := responseObject }
      | none =>
        { response := responseObject
          syncEvents := [BatchEvent.connectorWrite]
          asyncEvents := none
          finalResponse := responseObject }

/-! ## Batch create handlers (fan-out / fan-in)

`WeaviateBatchingActionsCreateHandler` / `WeaviateBatchingThingsCreateHandler`.
Each spawns one goroutine per item; every goroutine delivers exactly one
`(requestIndex, responseObject)` pair into a channel of capacity equal to
the batch length; after the wait-group join, the handler fills a slice of
nil pointers (`make([]*R, n)`) by index. The channel's arrival order is an
arbitrary interleaving, modelled by the `deliveryOrder` parameter (a
permutation of `0..n-1`); `assembleResponses` is the fan-in loop. -/

/-- The fan-in loop: fills a length-`n` slice of nil pointers, writing each
delivered response at its carried index. -/
def assembleResponses {R : Type} (n : Nat) (delivered : List (Nat × R)) :
    List (Option R) :=
  delivered.foldl
    (fun batchedRequestResponse p => batchedRequestResponse.set p.1 (some p.2))
    (List.replicate n none)

/-- Responses of the actions batch handler. -/
inductive ActionsBatchResponse where
  | forbidden
  | unprocessableEntity (errors : List String)
  | ok (payload : List (Option ActionsGetResponse))
deriving DecidableEq, Repr

/-- Responses of the things batch handler. -/
inductive ThingsBatchResponse where
  | forbidden
  | unprocessableEntity (errors : List String)
  | ok (payload : List (Option ThingsGetResponse))
deriving DecidableEq, Repr

/-- Outcome of a batch handler run: the HTTP response, the number of
goroutines spawned, the capacity of the result channel it allocated (0 when
none is allocated), the per-item traces in index order, and the pairs
delivered to the channel in arrival order. -/
structure ActionsBatchOutcome where
  response : ActionsBatchResponse
  spawnedTasks : Nat
  channelCapacity : Nat
  itemTraces : List BatchedActionsCreateItemTrace
  delivered : List (Nat × ActionsGetResponse)
deriving Repr

/-- Outcome of a things batch handler run. -/
structure ThingsBatchOutcome where
  response : ThingsBatchResponse
  spawnedTasks : Nat
  channelCapacity : Nat
  itemTraces : List BatchedThingsCreateItemTrace
  delivered : List (Nat × ThingsGetResponse)
deriving Repr

/-- A default `ActionCreate` (Go zero value), used only for out-of-range
index lookups that the permutation hypotheses rule out. -/
def defaultActionCreate : ActionCreate := { atContext := "", atClass := "", schemaBlob := "" }

/-- A default `ThingCreate` (Go zero value). -/
def defaultThingCreate : ThingCreate := { atContext := "", atClass := "", schemaBlob := "" }

/-- `WeaviateBatchingActionsCreateHandler`: authorization gate, empty-batch
rejection with an empty `models.ErrorResponse` payload, field resolution
with `isThingsCreate = false`, a result channel of capacity `n`, one
goroutine per item, and index-keyed reassembly. `validateAt`, `writeAt` and
`uuidAt` are the per-index oracles for validation, connector write and UUID
generation; `allowed` is the outcome of `auth.ActionsAllowed`. -/
def weaviateBatchingActionsCreateHandler
    (allowed : Bool) (bodyActions : List ActionCreate)
    (bodyFields : List String) (async : Bool)
    (validateAt writeAt : Nat → Option String) (uuidAt : Nat → String)
    (url keyID : String) (now : Int)
    (deliveryOrder : List Nat) : ActionsBatchOutcome :=
  if ¬ allowed then
    { response := ActionsBatchResponse.forbidden
      spawnedTasks := 0, channelCapacity := 0, itemTraces := [], delivered := [] }
  else
    let amountOfBatchedRequests := bodyActions.length
    if amountOfBatchedRequests = 0 then
      { response := ActionsBatchResponse.unprocessableEntity []
        spawnedTasks := 0, channelCapacity := 0, itemTraces := [], delivered := [] }
    else
      let fieldsToKeep := determineResponseFields bodyFields false
      let itemTrace := fun requestIndex =>
        handleBatchedActionsCreateRequest
          (bodyActions.getD requestIndex defaultActionCreate) fieldsToKeep
          (uuidAt requestIndex) url keyID now
          (validateAt requestIndex) (writeAt requestIndex) async
      let delivered :=
        deliveryOrder.map (fun requestIndex => (requestIndex, (itemTrace requestIndex).response))
      { response :=
          ActionsBatchResponse.ok (assembleResponses amountOfBatchedRequests delivered)
        spawnedTasks := amountOfBatchedRequests
        channelCapacity := amountOfBatchedRequests
        itemTraces := (List.range amountOfBatchedRequests).map itemTrace
        delivered := delivered }

/-- `WeaviateBatchingThingsCreateHandler`: identical control flow for
things, with `isThingsCreate = true`. -/
def weaviateBatchingThingsCreateHandler
    (allowed : Bool) (bodyThings : List ThingCreate)
    (bodyFields : List String) (async : Bool)
    (validateAt writeAt : Nat → Option String) (uuidAt : Nat → String)
    (url keyID : String) (now : Int)
    (deliveryOrder : List Nat) : ThingsBatchOutcome :=
  if ¬ allowed then
    { response := ThingsBatchResponse.forbidden
      spawnedTasks := 0, channelCapacity := 0, itemTraces := [], delivered := [] }
  else
    let amountOfBatchedRequests := bodyThings.length
    if amountOfBatchedRequests = 0 then
      { response := ThingsBatchResponse.unprocessableEntity []
        spawnedTasks := 0, channelCapacity := 0, itemTraces := [], delivered := [] }
    else
      let fieldsToKeep := determineResponseFields bodyFields true
      let itemTrace := fun requestIndex =>
        handleBatchedThingsCreateRequest
          (bodyThings.getD requestIndex defaultThingCreate) fieldsToKeep
          (uuidAt requestIndex) url keyID now
          (validateAt requestIndex) (writeAt requestIndex) async
      let delivered :=
        deliveryOrder.map (fun requestIndex => (requestIndex, (itemTrace requestIndex).response))
      { response :=
          ThingsBatchResponse.ok (assembleResponses amountOfBatchedRequests delivered)
        spawnedTasks := amountOfBatchedRequests
        channelCapacity := amountOfBatchedRequests
        itemTraces := (List.range amountOfBatchedRequests).map itemTrace
        delivered := delivered }

/-! ## GraphQL handlers

The GraphQL provider (`graphqlapi.GraphQL`, package-level variable
`graphQL`) is opaque; it is modelled as `Option (String → GraphQLResponse)`
(`none` = nil provider). JSON marshalling of the resolver result is
modelled as always succeeding. -/

/-- `models.GraphQLResponse`, opaque payload. -/
structure GraphQLResponse where
  payload : String
deriving DecidableEq, Repr

/-- Responses of the single-request `GraphqlWeaviateGraphqlPostHandler`. -/
inductive GraphQLPostResponse where
  | unprocessableEntity (errors : List String)
  | ok (resp : GraphQLResponse)
deriving DecidableEq, Repr

/-- `GraphqlWeaviateGraphqlPostHandler` on a single request: empty query →
422, nil provider → 422 with the dedicated message, else resolve. -/
def graphqlWeaviateGraphqlPostHandler
    (graphQL : Option (String → GraphQLResponse)) (query : String) :
    GraphQLPostResponse :=
  if query = "" then
    GraphQLPostResponse.unprocessableEntity ["query cannot be empty"]
  else
    match graphQL with
    | none =>
      GraphQLPostResponse.unprocessableEntity
        ["no graphql provider present, this is most likely because no schema is present. Import a schema first!"]
    | some resolve => GraphQLPostResponse.ok (resolve query)

/-- Outcome of one per-request goroutine of the batched GraphQL handler:
either it panics, or it delivers `(requestIndex, response)` to the result
channel. -/
inductive UnbatchedRequestOutcome where
  | panicked (msg : String)
  | delivered (requestIndex : Nat) (resp : GraphQLResponse)
deriving DecidableEq, Repr

/-- The fixed 422 payload the batched path reports in place of a header
error code. -/
def batchedError422Response : GraphQLResponse :=
  { payload := "422: The request is well-formed but was unable to be followed due to semantic errors." }

/-- `handleUnbatchedGraphQLRequest`: empty query → deliver the 422 payload;
otherwise, if the provider is nil, `panic("graphql is nil!")`; else resolve
and deliver. -/
def handleUnbatchedGraphQLRequest
    (graphQL : Option (String → GraphQLResponse))
    (requestIndex : Nat) (query : String) : UnbatchedRequestOutcome :=
  if query = "" then
    UnbatchedRequestOutcome.delivered requestIndex batchedError422Response
  else
    match graphQL with
    | none => UnbatchedRequestOutcome.panicked "graphql is nil!"
    | some resolve => UnbatchedRequestOutcome.delivered requestIndex (resolve query)

/-! ## Schema-update callback (`configureServer`)

The callback registered with `manager.RegisterSchemaUpdateCallback`.
Oracles: `listPeers` is the outcome of `network.ListPeers`, `build` the
outcome of `graphqlapi.Build` for the fetched peer list. The package-level
variable `graphQL` before the callback runs is `priorGraphQL`; the provider
type is opaque (type parameter `G`). -/

/-- A log emission of the callback. -/
inductive LogEvent where
  | errorLogged (msg : String)
  | infoLogged (msg : String)
deriving DecidableEq, Repr

/-- State after the callback: the new value of the package-level `graphQL`
variable and the logs emitted. -/
structure SchemaUpdateCallbackOutcome (G : Type) where
  graphQL : Option G
  logs : List LogEvent
deriving Repr

/-- The schema-update callback body: on peer-list failure it assigns
`graphQL = nil` and logs an error; on build failure likewise; on success it
publishes the rebuilt provider and logs an info message. -/
def schemaUpdateCallback {G : Type} (_priorGraphQL : Option G)
    (listPeers : Except String (List Peer))
    (build : List Peer → Except String G) : SchemaUpdateCallbackOutcome G :=
  match listPeers with
  | Except.error e =>
    { graphQL := none
      logs := [LogEvent.errorLogged
        ("could not list network peers to regenerate schema: " ++ e)] }
  | Except.ok peers =>
    match build peers with
    | Except.error e =>
      { graphQL := none
        logs := [LogEvent.errorLogged
          ("Could not re-generate GraphQL schema, because: " ++ e)] }
    | Except.ok updatedGraphQL =>
      { graphQL := some updatedGraphQL
        logs := [LogEvent.infoLogged "Updated GraphQL schema"] }

/-! ## Fan-in lemmas -/

/-- The fan-in fold preserves the length of the response slice. -/
theorem foldl_set_length {R : Type} (l : List (Nat × R)) (init : List (Option R)) :
    (l.foldl (fun acc p => acc.set p.1 (some p.2)) init).length = init.length := by
  induction l generalizing init with
  | nil => rfl
  | cons hd tl ih => rw [List.foldl_cons, ih, List.length_set]

/-- A slot whose index is delivered by no result is left untouched by the
fan-in fold. -/
theorem foldl_set_getElem?_not_mem {R : Type} (l : List (Nat × R))
    (init : List (Option R)) (i : Nat) (h : i ∉ l.map Prod.fst) :
    (l.foldl (fun acc p => acc.set p.1 (some p.2)) init)[i]? = init[i]? := by
  induction l generalizing init with
  | nil => rfl
  | cons hd tl ih =>
    simp only [List.map_cons, List.mem_cons] at h
    push_neg at h
    rw [List.foldl_cons, ih _ h.2, List.getElem?_set_ne (Ne.symm h.1)]

/-- If the delivered indices are pairwise distinct, the fan-in fold writes
each delivered result into its slot. -/
theorem foldl_set_getElem?_mem {R : Type} (l : List (Nat × R))
    (init : List (Option R)) (i : Nat) (r : R) (hmem : (i, r) ∈ l)
    (hnd : (l.map Prod.fst).Nodup) (hi : i < init.length) :
    (l.foldl (fun acc p => acc.set p.1 (some p.2)) init)[i]? = some (some r) := by
  induction l generalizing init with
  | nil => cases hmem
  | cons hd tl ih =>
    obtain ⟨a, b⟩ := hd
    simp only [List.map_cons, List.nodup_cons] at hnd
    rcases List.mem_cons.1 hmem with heq | hmem'
    · obtain ⟨rfl, rfl⟩ := Prod.mk.injEq .. ▸ heq
      rw [List.foldl_cons, foldl_set_getElem?_not_mem _ _ _ hnd.1]
      exact List.getElem?_set_eq_of_lt _ hi
    · rw [List.foldl_cons]
      exact ih _ hmem' hnd.2 (by rwa [List.length_set])

/-- Reassembly of a full permutation of index-tagged results: slot `i` of the
assembled response ends up holding exactly the result produced for item `i`. -/
theorem assembleResponses_perm_getElem? {R : Type} (n : Nat) (out : Nat → R)
    (deliveryOrder : List Nat) (hperm : deliveryOrder.Perm (List.range n))
    (i : Nat) (hi : i < n) :
    (assembleResponses n (deliveryOrder.map (fun j => (j, out j))))[i]? =
      some (some (out i)) := by
  have hmem : (i, out i) ∈ deliveryOrder.map (fun j => (j, out j)) :=
    List.mem_map_of_mem _ (hperm.mem_iff.2 (List.mem_range.2 hi))
  have hfst : (deliveryOrder.map (fun j => (j, out j))).map Prod.fst = deliveryOrder := by
    simp [List.map_map, Function.comp_def]
  have hnd : ((deliveryOrder.map (fun j => (j, out j))).map Prod.fst).Nodup := by
    rw [hfst]
    exact hperm.nodup_iff.2 (List.nodup_range n)
  exact foldl_set_getElem?_mem _ _ _ _ hmem hnd (by simp [hi])

/-- The assembled response list has one slot per batch item. -/
theorem assembleResponses_length {R : Type} (n : Nat) (delivered : List (Nat × R)) :
    (assembleResponses n delivered).length = n := by
  rw [assembleResponses, foldl_set_length, List.length_replicate]

/-! ## Claim theorems -/

/-- C1: for every batch of N ≥ 1 items submitted to the batch-create
handlers (things or actions), regardless of the order in which the
per-item tasks deliver to the result channel, the i-th element of the
returned response sequence equals the result produced for the i-th input
item, for all i < N; reassembly uses only the carried index. -/
theorem batch_create_order_preservation :
    (∀ (bodyActions : List ActionCreate) (bodyFields : List String) (async : Bool)
        (validateAt writeAt : Nat → Option String) (uuidAt : Nat → String)
        (url keyID : String) (now : Int) (deliveryOrder : List Nat) (i : Nat),
        deliveryOrder.Perm (List.range bodyActions.length) →
        i < bodyActions.length →
        ∃ payload,
          (weaviateBatchingActionsCreateHandler true bodyActions bodyFields async
              validateAt writeAt uuidAt url keyID now deliveryOrder).response =
            ActionsBatchResponse.ok payload ∧
          payload[i]? =
            some (some (handleBatchedActionsCreateRequest
              (bodyActions.getD i defaultActionCreate)
              (determineResponseFields bodyFields false)
              (uuidAt i) url keyID now (validateAt i) (writeAt i) async).response)) ∧
    (∀ (bodyThings : List ThingCreate) (bodyFields : List String) (async : Bool)
        (validateAt writeAt : Nat → Option String) (uuidAt : Nat → String)
        (url keyID : String) (now : Int) (deliveryOrder : List Nat) (i : Nat),
        deliveryOrder.Perm (List.range bodyThings.length) →
        i < bodyThings.length →
        ∃ payload,
          (weaviateBatchingThingsCreateHandler true bodyThings bodyFields async
              validateAt writeAt uuidAt url keyID now deliveryOrder).response =
            ThingsBatchResponse.ok payload ∧
          payload[i]? =
            some (some (handleBatchedThingsCreateRequest
              (bodyThings.getD i defaultThingCreate)
              (determineResponseFields bodyFields true)
              (uuidAt i) url keyID now (validateAt i) (writeAt i) async).response)) := by
  constructor
  · intro bodyActions bodyFields async validateAt writeAt uuidAt url keyID now
      deliveryOrder i hperm hi
    have hn : ¬ bodyActions.length = 0 :=
      Nat.pos_iff_ne_zero.1 (Nat.lt_of_le_of_lt (Nat.zero_le i) hi)
    refine ⟨assembleResponses bodyActions.length
      (deliveryOrder.map (fun j => (j, (handleBatchedActionsCreateRequest
        (bodyActions.getD j defaultActionCreate)
        (determineResponseFields bodyFields false)
        (uuidAt j) url keyID now (validateAt j) (writeAt j) async).response))), ?_, ?_⟩
    · simp only [weaviateBatchingActionsCreateHandler, not_true, if_false]
      rw [if_neg hn]
    · exact assembleResponses_perm_getElem? bodyActions.length _ deliveryOrder hperm i hi
  · intro bodyThings bodyFields async validateAt writeAt uuidAt url keyID now
      deliveryOrder i hperm hi
    have hn : ¬ bodyThings.length = 0 :=
      Nat.pos_iff_ne_zero.1 (Nat.lt_of_le_of_lt (Nat.zero_le i) hi)
    refine ⟨assembleResponses bodyThings.length
      (deliveryOrder.map (fun j => (j, (handleBatchedThingsCreateRequest
        (bodyThings.getD j defaultThingCreate)
        (determineResponseFields bodyFields true)
        (uuidAt j) url keyID now (validateAt j) (writeAt j) async).response))), ?_, ?_⟩
    · simp only [weaviateBatchingThingsCreateHandler, not_true, if_false]
      rw [if_neg hn]
    · exact assembleResponses_perm_getElem? bodyThings.length _ deliveryOrder hperm i hi

/-- Witness for C1: a two-item actions batch delivered in reversed order
still answers slot 0 with item 0's result. -/
theorem batch_create_order_preservation_witness :
    ∃ payload,
      (weaviateBatchingActionsCreateHandler true [defaultActionCreate, defaultActionCreate]
          [] false (fun _ => none) (fun _ => none) (fun _ => "uuid") "host" "key" 0
          [1, 0]).response =
        ActionsBatchResponse.ok payload ∧
      payload[0]? =
        some (some (handleBatchedActionsCreateRequest defaultActionCreate
          (determineResponseFields [] false) "uuid" "host" "key" 0 none none false).response) :=
  batch_create_order_preservation.1 [defaultActionCreate, defaultActionCreate] [] false
    (fun _ => none) (fun _ => none) (fun _ => "uuid") "host" "key" 0 [1, 0] 0
    (by decide) (by decide)

/-- The per-item trace the actions handler computes for a given request
index (the body of its fan-out loop). -/
def actionsItemTrace (bodyActions : List ActionCreate) (bodyFields : List String)
    (async : Bool) (validateAt writeAt : Nat → Option String) (uuidAt : Nat → String)
    (url keyID : String) (now : Int) (requestIndex : Nat) :
    BatchedActionsCreateItemTrace :=
  handleBatchedActionsCreateRequest (bodyActions.getD requestIndex defaultActionCreate)
    (determineResponseFields bodyFields false) (uuidAt requestIndex) url keyID now
    (validateAt requestIndex) (writeAt requestIndex) async

/-- The per-item trace the things handler computes for a given request
index. -/
def thingsItemTrace (bodyThings : List ThingCreate) (bodyFields : List String)
    (async : Bool) (validateAt writeAt : Nat → Option String) (uuidAt : Nat → String)
    (url keyID : String) (now : Int) (requestIndex : Nat) :
    BatchedThingsCreateItemTrace :=
  handleBatchedThingsCreateRequest (bodyThings.getD requestIndex defaultThingCreate)
    (determineResponseFields bodyFields true) (uuidAt requestIndex) url keyID now
    (validateAt requestIndex) (writeAt requestIndex) async

/-- Unfolding of the actions handler on an authorized, non-empty batch. -/
theorem weaviateBatchingActionsCreateHandler_nonempty
    (bodyActions : List ActionCreate) (bodyFields : List String) (async : Bool)
    (validateAt writeAt : Nat → Option String) (uuidAt : Nat → String)
    (url keyID : String) (now : Int) (deliveryOrder : List Nat)
    (hn : bodyActions.length ≠ 0) :
    weaviateBatchingActionsCreateHandler true bodyActions bodyFields async
        validateAt writeAt uuidAt url keyID now deliveryOrder =
      { response := ActionsBatchResponse.ok (assembleResponses bodyActions.length
          (deliveryOrder.map (fun j => (j, (actionsItemTrace bodyActions bodyFields async
            validateAt writeAt uuidAt url keyID now j).response))))
        spawnedTasks := bodyActions.length
        channelCapacity := bodyActions.length
        itemTraces := (List.range bodyActions.length).map (actionsItemTrace bodyActions
          bodyFields async validateAt writeAt uuidAt url keyID now)
        delivered := deliveryOrder.map (fun j => (j, (actionsItemTrace bodyActions bodyFields
          async validateAt writeAt uuidAt url keyID now j).response)) } := by
  simp only [weaviateBatchingActionsCreateHandler, not_true, if_false]
  rw [if_neg hn]
  rfl

/-- Unfolding of the things handler on an authorized, non-empty batch. -/
theorem weaviateBatchingThingsCreateHandler_nonempty
    (bodyThings : List ThingCreate) (bodyFields : List String) (async : Bool)
    (validateAt writeAt : Nat → Option String) (uuidAt : Nat → String)
    (url keyID : String) (now : Int) (deliveryOrder : List Nat)
    (hn : bodyThings.length ≠ 0) :
    weaviateBatchingThingsCreateHandler true bodyThings bodyFields async
        validateAt writeAt uuidAt url keyID now deliveryOrder =
      { response := ThingsBatchResponse.ok (assembleResponses bodyThings.length
          (deliveryOrder.map (fun j => (j, (thingsItemTrace bodyThings bodyFields async
            validateAt writeAt uuidAt url keyID now j).response))))
        spawnedTasks := bodyThings.length
        channelCapacity := bodyThings.length
        itemTraces := (List.range bodyThings.length).map (thingsItemTrace bodyThings
          bodyFields async validateAt writeAt uuidAt url keyID now)
        delivered := deliveryOrder.map (fun j => (j, (thingsItemTrace bodyThings bodyFields
          async validateAt writeAt uuidAt url keyID now j).response)) } := by
  simp only [weaviateBatchingThingsCreateHandler, not_true, if_false]
  rw [if_neg hn]
  rfl

/-- C4: for every non-empty batch, the handlers answer with exactly one
entry per input item — never empty or truncated — whatever the per-item
outcomes; every spawned task delivers exactly one result into a channel of
capacity equal to the batch length, so the number of sends never exceeds
the capacity. -/
theorem batch_create_one_entry_per_item :
    (∀ (bodyActions : List ActionCreate) (bodyFields : List String) (async : Bool)
        (validateAt writeAt : Nat → Option String) (uuidAt : Nat → String)
        (url keyID : String) (now : Int) (deliveryOrder : List Nat),
        deliveryOrder.Perm (List.range bodyActions.length) →
        bodyActions ≠ [] →
        ∃ payload,
          (weaviateBatchingActionsCreateHandler true bodyActions bodyFields async
              validateAt writeAt uuidAt url keyID now deliveryOrder).response =
            ActionsBatchResponse.ok payload ∧
          payload.length = bodyActions.length ∧
          (∀ i, i < bodyActions.length → ∃ r, payload[i]? = some (some r)) ∧
          (weaviateBatchingActionsCreateHandler true bodyActions bodyFields async
              validateAt writeAt uuidAt url keyID now deliveryOrder).spawnedTasks =
            bodyActions.length ∧
          (weaviateBatchingActionsCreateHandler true bodyActions bodyFields async
              validateAt writeAt uuidAt url keyID now deliveryOrder).channelCapacity =
            bodyActions.length ∧
          (weaviateBatchingActionsCreateHandler true bodyActions bodyFields async
              validateAt writeAt uuidAt url keyID now deliveryOrder).delivered.length =
            bodyActions.length ∧
          ((weaviateBatchingActionsCreateHandler true bodyActions bodyFields async
              validateAt writeAt uuidAt url keyID now deliveryOrder).delivered.map
            Prod.fst).Perm (List.range bodyActions.length)) ∧
    (∀ (bodyThings : List ThingCreate) (bodyFields : List String) (async : Bool)
        (validateAt writeAt : Nat → Option String) (uuidAt : Nat → String)
        (url keyID : String) (now : Int) (deliveryOrder : List Nat),
        deliveryOrder.Perm (List.range bodyThings.length) →
        bodyThings ≠ [] →
        ∃ payload,
          (weaviateBatchingThingsCreateHandler true bodyThings bodyFields async
              validateAt writeAt uuidAt url keyID now deliveryOrder).response =
            ThingsBatchResponse.ok payload ∧
          payload.length = bodyThings.length ∧
          (∀ i, i < bodyThings.length → ∃ r, payload[i]? = some (some r)) ∧
          (weaviateBatchingThingsCreateHandler true bodyThings bodyFields async
              validateAt writeAt uuidAt url keyID now deliveryOrder).spawnedTasks =
            bodyThings.length ∧
          (weaviateBatchingThingsCreateHandler true bodyThings bodyFields async
              validateAt writeAt uuidAt url keyID now deliveryOrder).channelCapacity =
            bodyThings.length ∧
          (weaviateBatchingThingsCreateHandler true bodyThings bodyFields async
              validateAt writeAt uuidAt url keyID now deliveryOrder).delivered.length =
            bodyThings.length ∧
          ((weaviateBatchingThingsCreateHandler true bodyThings bodyFields async
              validateAt writeAt uuidAt url keyID now deliveryOrder).delivered.map
            Prod.fst).Perm (List.range bodyThings.length)) := by
  constructor
  · intro bodyActions bodyFields async validateAt writeAt uuidAt url keyID now
      deliveryOrder hperm hne
    have hn : bodyActions.length ≠ 0 := fun h => hne (List.length_eq_zero.1 h)
    rw [weaviateBatchingActionsCreateHandler_nonempty _ _ _ _ _ _ _ _ _ _ hn]
    refine ⟨_, rfl, assembleResponses_length _ _, ?_, rfl, rfl, ?_, ?_⟩
    · intro i hi
      exact ⟨_, assembleResponses_perm_getElem? bodyActions.length _ deliveryOrder hperm i hi⟩
    · simp [hperm.length_eq]
    · simpa [List.map_map, Function.comp_def] using hperm
  · intro bodyThings bodyFields async validateAt writeAt uuidAt url keyID now
      deliveryOrder hperm hne
    have hn : bodyThings.length ≠ 0 := fun h => hne (List.length_eq_zero.1 h)
    rw [weaviateBatchingThingsCreateHandler_nonempty _ _ _ _ _ _ _ _ _ _ hn]
    refine ⟨_, rfl, assembleResponses_length _ _, ?_, rfl, rfl, ?_, ?_⟩
    · intro i hi
      exact ⟨_, assembleResponses_perm_getElem? bodyThings.length _ deliveryOrder hperm i hi⟩
    · simp [hperm.length_eq]
    · simpa [List.map_map, Function.comp_def] using hperm

/-- Witness for C4: a concrete two-item things batch delivered in reversed
order yields a full two-entry payload. -/
theorem batch_create_one_entry_per_item_witness :
    ∃ payload,
      (weaviateBatchingThingsCreateHandler true [defaultThingCreate, defaultThingCreate]
          [] false (fun _ => none) (fun _ => none) (fun _ => "uuid") "host" "key" 0
          [1, 0]).response =
        ThingsBatchResponse.ok payload ∧
      payload.length = 2 ∧
      (∀ i, i < 2 → ∃ r, payload[i]? = some (some r)) ∧
      (weaviateBatchingThingsCreateHandler true [defaultThingCreate, defaultThingCreate]
          [] false (fun _ => none) (fun _ => none) (fun _ => "uuid") "host" "key" 0
          [1, 0]).spawnedTasks = 2 ∧
      (weaviateBatchingThingsCreateHandler true [defaultThingCreate, defaultThingCreate]
          [] false (fun _ => none) (fun _ => none) (fun _ => "uuid") "host" "key" 0
          [1, 0]).channelCapacity = 2 ∧
      (weaviateBatchingThingsCreateHandler true [defaultThingCreate, defaultThingCreate]
          [] false (fun _ => none) (fun _ => none) (fun _ => "uuid") "host" "key" 0
          [1, 0]).delivered.length = 2 ∧
      ((weaviateBatchingThingsCreateHandler true [defaultThingCreate, defaultThingCreate]
          [] false (fun _ => none) (fun _ => none) (fun _ => "uuid") "host" "key" 0
          [1, 0]).delivered.map Prod.fst).Perm (List.range 2) :=
  batch_create_one_entry_per_item.2 [defaultThingCreate, defaultThingCreate] [] false
    (fun _ => none) (fun _ => none) (fun _ => "uuid") "host" "key" 0 [1, 0]
    (by decide) (by decide)

/-- C5: a zero-item batch is rejected with the empty-payload
unprocessable-entity response (the `models.ErrorResponse{}` precondition
error) before any fan-out: no goroutine is spawned, no channel is
allocated, no per-item trace — hence no connector write — exists. -/
theorem empty_batch_rejection :
    (∀ (bodyFields : List String) (async : Bool) (validateAt writeAt : Nat → Option String)
        (uuidAt : Nat → String) (url keyID : String) (now : Int) (deliveryOrder : List Nat),
        weaviateBatchingActionsCreateHandler true [] bodyFields async validateAt writeAt
            uuidAt url keyID now deliveryOrder =
          { response := ActionsBatchResponse.unprocessableEntity []
            spawnedTasks := 0, channelCapacity := 0, itemTraces := [], delivered := [] }) ∧
    (∀ (bodyFields : List String) (async : Bool) (validateAt writeAt : Nat → Option String)
        (uuidAt : Nat → String) (url keyID : String) (now : Int) (deliveryOrder : List Nat),
        weaviateBatchingThingsCreateHandler true [] bodyFields async validateAt writeAt
            uuidAt url keyID now deliveryOrder =
          { response := ThingsBatchResponse.unprocessableEntity []
            spawnedTasks := 0, channelCapacity := 0, itemTraces := [], delivered := [] }) := by
  constructor <;> intro bodyFields async validateAt writeAt uuidAt url keyID now deliveryOrder <;> rfl

/-- C2: a validated item of an async batch registers exactly one pending
step strictly before spawning the write task, reports PENDING, and the
spawned task performs the connector write and then calls the delayed
unlock exactly once; on connector failure it overwrites the reported
result to FAILED with the connector error. -/
theorem async_item_pending_step_accounting :
    (∀ (batchedRequest : ActionCreate) (fieldsToKeep : List String)
        (uuid url keyID : String) (now : Int) (writeErr : Option String),
        (handleBatchedActionsCreateRequest batchedRequest fieldsToKeep uuid url keyID now
            none writeErr true).syncEvents =
          [BatchEvent.incSteps, BatchEvent.spawnAsync] ∧
        (handleBatchedActionsCreateRequest batchedRequest fieldsToKeep uuid url keyID now
            none writeErr true).response.result.status = some ResultStatus.PENDING ∧
        (handleBatchedActionsCreateRequest batchedRequest fieldsToKeep uuid url keyID now
            none writeErr true).asyncEvents =
          some [BatchEvent.connectorWrite, BatchEvent.delayedUnlock] ∧
        (∀ e, writeErr = some e →
          (handleBatchedActionsCreateRequest batchedRequest fieldsToKeep uuid url keyID now
              none writeErr true).finalResponse.result.status = some ResultStatus.FAILED ∧
          (handleBatchedActionsCreateRequest batchedRequest fieldsToKeep uuid url keyID now
              none writeErr true).finalResponse.result.errors = some [e])) ∧
    (∀ (batchedRequest : ThingCreate) (fieldsToKeep : List String)
        (uuid url keyID : String) (now : Int) (writeErr : Option String),
        (handleBatchedThingsCreateRequest batchedRequest fieldsToKeep uuid url keyID now
            none writeErr true).syncEvents =
          [BatchEvent.incSteps, BatchEvent.spawnAsync] ∧
        (handleBatchedThingsCreateRequest batchedRequest fieldsToKeep uuid url keyID now
            none writeErr true).response.result.status = some ResultStatus.PENDING ∧
        (handleBatchedThingsCreateRequest batchedRequest fieldsToKeep uuid url keyID now
            none writeErr true).asyncEvents =
          some [BatchEvent.connectorWrite, BatchEvent.delayedUnlock] ∧
        (∀ e, writeErr = some e →
          (handleBatchedThingsCreateRequest batchedRequest fieldsToKeep uuid url keyID now
              none writeErr true).finalResponse.result.status = some ResultStatus.FAILED ∧
          (handleBatchedThingsCreateRequest batchedRequest fieldsToKeep uuid url keyID now
              none writeErr true).finalResponse.result.errors = some [e])) := by
  constructor <;>
    refine fun batchedRequest fieldsToKeep uuid url keyID now writeErr =>
      ⟨rfl, rfl, rfl, fun e he => ?_⟩ <;>
    · subst he
      exact ⟨rfl, rfl⟩

/-- Witness for C2: concrete async action item whose connector write fails. -/
theorem async_item_pending_step_accounting_witness :
    (handleBatchedActionsCreateRequest defaultActionCreate
        (determineResponseFields [] false) "uuid" "host" "key" 0 none
        (some "connector failed") true).syncEvents =
      [BatchEvent.incSteps, BatchEvent.spawnAsync] ∧
    (handleBatchedActionsCreateRequest defaultActionCreate
        (determineResponseFields [] false) "uuid" "host" "key" 0 none
        (some "connector failed") true).response.result.status = some ResultStatus.PENDING ∧
    (handleBatchedActionsCreateRequest defaultActionCreate
        (determineResponseFields [] false) "uuid" "host" "key" 0 none
        (some "connector failed") true).finalResponse.result.status =
      some ResultStatus.FAILED ∧
    (handleBatchedActionsCreateRequest defaultActionCreate
        (determineResponseFields [] false) "uuid" "host" "key" 0 none
        (some "connector failed") true).finalResponse.result.errors =
      some ["connector failed"] := by
  obtain ⟨h1, h2, _, h4⟩ := async_item_pending_step_accounting.1 defaultActionCreate
    (determineResponseFields [] false) "uuid" "host" "key" 0 (some "connector failed")
  exact ⟨h1, h2, (h4 _ rfl).1, (h4 _ rfl).2⟩

/-- A per-item handler invocation whose validation fails: result FAILED
with the validation error, no event at all (in particular no connector
write), no spawned task. -/
theorem handleBatchedActionsCreateRequest_validation_failed
    (batchedRequest : ActionCreate) (fieldsToKeep : List String)
    (uuid url keyID : String) (now : Int) (e : String) (writeErr : Option String)
    (async : Bool) :
    (handleBatchedActionsCreateRequest batchedRequest fieldsToKeep uuid url keyID now
        (some e) writeErr async).response.result.status = some ResultStatus.FAILED ∧
    (handleBatchedActionsCreateRequest batchedRequest fieldsToKeep uuid url keyID now
        (some e) writeErr async).response.result.errors = some [e] ∧
    (handleBatchedActionsCreateRequest batchedRequest fieldsToKeep uuid url keyID now
        (some e) writeErr async).syncEvents = [] ∧
    (handleBatchedActionsCreateRequest batchedRequest fieldsToKeep uuid url keyID now
        (some e) writeErr async).asyncEvents = none :=
  ⟨rfl, rfl, rfl, rfl⟩

/-- A per-item things invocation whose validation fails. -/
theorem handleBatchedThingsCreateRequest_validation_failed
    (batchedRequest : ThingCreate) (fieldsToKeep : List String)
    (uuid url keyID : String) (now : Int) (e : String) (writeErr : Option String)
    (async : Bool) :
    (handleBatchedThingsCreateRequest batchedRequest fieldsToKeep uuid url keyID now
        (some e) writeErr async).response.result.status = some ResultStatus.FAILED ∧
    (handleBatchedThingsCreateRequest batchedRequest fieldsToKeep uuid url keyID now
        (some e) writeErr async).response.result.errors = some [e] ∧
    (handleBatchedThingsCreateRequest batchedRequest fieldsToKeep uuid url keyID now
        (some e) writeErr async).syncEvents = [] ∧
    (handleBatchedThingsCreateRequest batchedRequest fieldsToKeep uuid url keyID now
        (some e) writeErr async).asyncEvents = none :=
  ⟨rfl, rfl, rfl, rfl⟩

/-- A per-item handler invocation that validates and writes synchronously
with success: exactly one connector write, no spawned task, no errors, and
a status pointer left nil (never explicitly set to SUCCESS). -/
theorem handleBatchedActionsCreateRequest_sync_success
    (batchedRequest : ActionCreate) (fieldsToKeep : List String)
    (uuid url keyID : String) (now : Int) :
    (handleBatchedActionsCreateRequest batchedRequest fieldsToKeep uuid url keyID now
        none none false).response.result.status = none ∧
    (handleBatchedActionsCreateRequest batchedRequest fieldsToKeep uuid url keyID now
        none none false).response.result.errors = none ∧
    (handleBatchedActionsCreateRequest batchedRequest fieldsToKeep uuid url keyID now
        none none false).syncEvents = [BatchEvent.connectorWrite] ∧
    (handleBatchedActionsCreateRequest batchedRequest fieldsToKeep uuid url keyID now
        none none false).asyncEvents = none :=
  ⟨rfl, rfl, rfl, rfl⟩

/-- A per-item things invocation that validates and writes synchronously
with success. -/
theorem handleBatchedThingsCreateRequest_sync_success
    (batchedRequest : ThingCreate) (fieldsToKeep : List String)
    (uuid url keyID : String) (now : Int) :
    (handleBatchedThingsCreateRequest batchedRequest fieldsToKeep uuid url keyID now
        none none false).response.result.status = none ∧
    (handleBatchedThingsCreateRequest batchedRequest fieldsToKeep uuid url keyID now
        none none false).response.result.errors = none ∧
    (handleBatchedThingsCreateRequest batchedRequest fieldsToKeep uuid url keyID now
        none none false).syncEvents = [BatchEvent.connectorWrite] ∧
    (handleBatchedThingsCreateRequest batchedRequest fieldsToKeep uuid url keyID now
        none none false).asyncEvents = none :=
  ⟨rfl, rfl, rfl, rfl⟩

/-- Extracts the OK payload of an actions batch response. -/
def actionsResponsePayload : ActionsBatchResponse → List (Option ActionsGetResponse)
  | ActionsBatchResponse.ok payload => payload
  | _ => []

/-- C6 counterexample: a two-item synchronous actions batch where item 0
fails validation and item 1 validates and writes successfully. The status
sequence of the response is `[FAILED, nil]`: the sibling entry's status
pointer is left nil — the handler never assigns SUCCESS in the synchronous
success path — so the claimed "N−1 SUCCESS entries" output
`[FAILED, SUCCESS]` is not what the code produces. -/
theorem partial_failure_success_status_counterexample :
    (actionsResponsePayload (weaviateBatchingActionsCreateHandler true
        [defaultActionCreate, defaultActionCreate] [] false
        (fun i => if i = 0 then some "invalid" else none) (fun _ => none) (fun _ => "uuid")
        "host" "key" 0 [0, 1]).response).map
      (Option.map (fun r => r.result.status)) =
      [some (some ResultStatus.FAILED), some none] ∧
    [some (some ResultStatus.FAILED), some (none : Option ResultStatus)] ≠
      [some (some ResultStatus.FAILED), some (some ResultStatus.SUCCESS)] := by
  constructor
  · decide
  · decide

/-- C6 amended: in a synchronous batch where exactly item k fails
validation and every other item validates and writes successfully, the
response has entry k FAILED with the validation error and the other N−1
entries with no errors and a nil status pointer (the handler does not set
SUCCESS explicitly); item k's task never touches the connector, while every
other item performs exactly one connector write and spawns no async task. -/
theorem partial_failure_isolation_amended :
    (∀ (bodyActions : List ActionCreate) (bodyFields : List String)
        (validateAt writeAt : Nat → Option String) (uuidAt : Nat → String)
        (url keyID : String) (now : Int) (deliveryOrder : List Nat) (k : Nat) (e : String),
        deliveryOrder.Perm (List.range bodyActions.length) →
        k < bodyActions.length →
        validateAt k = some e →
        (∀ i, i < bodyActions.length → i ≠ k → validateAt i = none) →
        (∀ i, i < bodyActions.length → writeAt i = none) →
        ∃ payload,
          (weaviateBatchingActionsCreateHandler true bodyActions bodyFields false
              validateAt writeAt uuidAt url keyID now deliveryOrder).response =
            ActionsBatchResponse.ok payload ∧
          payload.length = bodyActions.length ∧
          (∃ r, payload[k]? = some (some r) ∧
            r.result.status = some ResultStatus.FAILED ∧ r.result.errors = some [e]) ∧
          (∀ i, i < bodyActions.length → i ≠ k →
            ∃ r, payload[i]? = some (some r) ∧
              r.result.status = none ∧ r.result.errors = none) ∧
          (∃ t, (weaviateBatchingActionsCreateHandler true bodyActions bodyFields false
              validateAt writeAt uuidAt url keyID now deliveryOrder).itemTraces[k]? =
                some t ∧ t.syncEvents = [] ∧ t.asyncEvents = none) ∧
          (∀ i, i < bodyActions.length → i ≠ k →
            ∃ t, (weaviateBatchingActionsCreateHandler true bodyActions bodyFields false
              validateAt writeAt uuidAt url keyID now deliveryOrder).itemTraces[i]? =
                some t ∧ t.syncEvents = [BatchEvent.connectorWrite] ∧
              t.asyncEvents = none)) ∧
    (∀ (bodyThings : List ThingCreate) (bodyFields : List String)
        (validateAt writeAt : Nat → Option String) (uuidAt : Nat → String)
        (url keyID : String) (now : Int) (deliveryOrder : List Nat) (k : Nat) (e : String),
        deliveryOrder.Perm (List.range bodyThings.length) →
        k < bodyThings.length →
        validateAt k = some e →
        (∀ i, i < bodyThings.length → i ≠ k → validateAt i = none) →
        (∀ i, i < bodyThings.length → writeAt i = none) →
        ∃ payload,
          (weaviateBatchingThingsCreateHandler true bodyThings bodyFields false
              validateAt writeAt uuidAt url keyID now deliveryOrder).response =
            ThingsBatchResponse.ok payload ∧
          payload.length = bodyThings.length ∧
          (∃ r, payload[k]? = some (some r) ∧
            r.result.status = some ResultStatus.FAILED ∧ r.result.errors = some [e]) ∧
          (∀ i, i < bodyThings.length → i ≠ k →
            ∃ r, payload[i]? = some (some r) ∧
              r.result.status = none ∧ r.result.errors = none) ∧
          (∃ t, (weaviateBatchingThingsCreateHandler true bodyThings bodyFields false
              validateAt writeAt uuidAt url keyID now deliveryOrder).itemTraces[k]? =
                some t ∧ t.syncEvents = [] ∧ t.asyncEvents = none) ∧
          (∀ i, i < bodyThings.length → i ≠ k →
            ∃ t, (weaviateBatchingThingsCreateHandler true bodyThings bodyFields false
              validateAt writeAt uuidAt url keyID now deliveryOrder).itemTraces[i]? =
                some t ∧ t.syncEvents = [BatchEvent.connectorWrite] ∧
              t.asyncEvents = none)) := by
  constructor
  · intro bodyActions bodyFields validateAt writeAt uuidAt url keyID now deliveryOrder
      k e hperm hk hvk hv hw
    have hn : bodyActions.length ≠ 0 :=
      Nat.pos_iff_ne_zero.1 (Nat.lt_of_le_of_lt (Nat.zero_le k) hk)
    rw [weaviateBatchingActionsCreateHandler_nonempty _ _ _ _ _ _ _ _ _ _ hn]
    refine ⟨_, rfl, assembleResponses_length _ _, ?_, ?_, ?_, ?_⟩
    · refine ⟨_, assembleResponses_perm_getElem? _ _ _ hperm k hk, ?_, ?_⟩ <;>
      · simp only [actionsItemTrace, hvk]
        rfl
    · intro i hi hik
      refine ⟨_, assembleResponses_perm_getElem? _ _ _ hperm i hi, ?_, ?_⟩ <;>
      · simp only [actionsItemTrace, hv i hi hik, hw i hi]
        rfl
    · refine ⟨actionsItemTrace bodyActions bodyFields false validateAt writeAt uuidAt
        url keyID now k, ?_, ?_, ?_⟩
      · simp [List.getElem?_map, List.getElem?_range, hk]
      · simp only [actionsItemTrace, hvk]
        rfl
      · simp only [actionsItemTrace, hvk]
        rfl
    · intro i hi hik
      refine ⟨actionsItemTrace bodyActions bodyFields false validateAt writeAt uuidAt
        url keyID now i, ?_, ?_, ?_⟩
      · simp [List.getElem?_map, List.getElem?_range, hi]
      · simp only [actionsItemTrace, hv i hi hik, hw i hi]
        rfl
      · simp only [actionsItemTrace, hv i hi hik, hw i hi]
        rfl
  · intro bodyThings bodyFields validateAt writeAt uuidAt url keyID now deliveryOrder
      k e hperm hk hvk hv hw
    have hn : bodyThings.length ≠ 0 :=
      Nat.pos_iff_ne_zero.1 (Nat.lt_of_le_of_lt (Nat.zero_le k) hk)
    rw [weaviateBatchingThingsCreateHandler_nonempty _ _ _ _ _ _ _ _ _ _ hn]
    refine ⟨_, rfl, assembleResponses_length _ _, ?_, ?_, ?_, ?_⟩
    · refine ⟨_, assembleResponses_perm_getElem? _ _ _ hperm k hk, ?_, ?_⟩ <;>
      · simp only [thingsItemTrace, hvk]
        rfl
    · intro i hi hik
      refine ⟨_, assembleResponses_perm_getElem? _ _ _ hperm i hi, ?_, ?_⟩ <;>
      · simp only [thingsItemTrace, hv i hi hik, hw i hi]
        rfl
    · refine ⟨thingsItemTrace bodyThings bodyFields false validateAt writeAt uuidAt
        url keyID now k, ?_, ?_, ?_⟩
      · simp [List.getElem?_map, List.getElem?_range, hk]
      · simp only [thingsItemTrace, hvk]
        rfl
      · simp only [thingsItemTrace, hvk]
        rfl
    · intro i hi hik
      refine ⟨thingsItemTrace bodyThings bodyFields false validateAt writeAt uuidAt
        url keyID now i, ?_, ?_, ?_⟩
      · simp [List.getElem?_map, List.getElem?_range, hi]
      · simp only [thingsItemTrace, hv i hi hik, hw i hi]
        rfl
      · simp only [thingsItemTrace, hv i hi hik, hw i hi]
        rfl

/-- Witness for the amended C6: the concrete two-item batch of the
counterexample, delivered in reversed order. -/
theorem partial_failure_isolation_amended_witness :
    ∃ payload,
      (weaviateBatchingActionsCreateHandler true
          [defaultActionCreate, defaultActionCreate] [] false
          (fun i => if i = 0 then some "invalid" else none) (fun _ => none)
          (fun _ => "uuid") "host" "key" 0 [1, 0]).response =
        ActionsBatchResponse.ok payload ∧
      payload.length = 2 ∧
      (∃ r, payload[0]? = some (some r) ∧
        r.result.status = some ResultStatus.FAILED ∧ r.result.errors = some ["invalid"]) ∧
      (∀ i, i < 2 → i ≠ 0 →
        ∃ r, payload[i]? = some (some r) ∧
          r.result.status = none ∧ r.result.errors = none) ∧
      (∃ t, (weaviateBatchingActionsCreateHandler true
          [defaultActionCreate, defaultActionCreate] [] false
          (fun i => if i = 0 then some "invalid" else none) (fun _ => none)
          (fun _ => "uuid") "host" "key" 0 [1, 0]).itemTraces[0]? =
            some t ∧ t.syncEvents = [] ∧ t.asyncEvents = none) ∧
      (∀ i, i < 2 → i ≠ 0 →
        ∃ t, (weaviateBatchingActionsCreateHandler true
          [defaultActionCreate, defaultActionCreate] [] false
          (fun i => if i = 0 then some "invalid" else none) (fun _ => none)
          (fun _ => "uuid") "host" "key" 0 [1, 0]).itemTraces[i]? =
            some t ∧ t.syncEvents = [BatchEvent.connectorWrite] ∧
          t.asyncEvents = none) :=
  partial_failure_isolation_amended.1 [defaultActionCreate, defaultActionCreate] []
    (fun i => if i = 0 then some "invalid" else none) (fun _ => none) (fun _ => "uuid")
    "host" "key" 0 [1, 0] 0 "invalid" (by decide) (by decide) (by decide)
    (by decide) (by decide)

/-- Membership in the Go-map-as-set insertion. -/
theorem mem_mapInsert (m : List String) (k s : String) :
    s ∈ mapInsert m k ↔ s ∈ m ∨ s = k := by
  unfold mapInsert
  split
  · rename_i h
    constructor
    · exact Or.inl
    · rintro (hs | rfl)
      · exact hs
      · exact h
  · simp [List.mem_append]

/-- Membership in the fold that lower-cases and inserts every supplied
field. -/
theorem mem_foldl_mapInsert (fields : List String) (acc : List String) (s : String) :
    s ∈ fields.foldl (fun m field => mapInsert m (toLowerStr field)) acc ↔
      s ∈ acc ∨ ∃ f ∈ fields, toLowerStr f = s := by
  induction fields generalizing acc with
  | nil => simp
  | cons hd tl ih =>
    rw [List.foldl_cons, ih, mem_mapInsert]
    constructor
    · rintro ((h | h) | ⟨f, hf, hfs⟩)
      · exact Or.inl h
      · exact Or.inr ⟨hd, List.mem_cons_self _ _, h.symm⟩
      · exact Or.inr ⟨f, List.mem_cons_of_mem _ hf, hfs⟩
    · rintro (h | ⟨f, hf, hfs⟩)
      · exact Or.inl (Or.inl h)
      · rcases List.mem_cons.1 hf with rfl | hf'
        · exact Or.inl (Or.inr hfs.symm)
        · exact Or.inr ⟨f, hf', hfs⟩

/-- C7: `determineResponseFields` yields the fixed default set (with
`actionid` swapped for `thingid` on things batches) when no field list is
supplied or some supplied field lower-cases to "all"; otherwise its
members are exactly the lower-casings of the supplied fields. -/
theorem determineResponseFields_spec :
    (∀ (isThingsCreate : Bool),
        determineResponseFields [] isThingsCreate = defaultFields isThingsCreate) ∧
    (∀ (fields : List String) (isThingsCreate : Bool),
        fields.any (fun field => toLowerStr field = "all") = true →
        determineResponseFields fields isThingsCreate = defaultFields isThingsCreate) ∧
    (∀ (fields : List String) (isThingsCreate : Bool) (s : String),
        fields ≠ [] →
        fields.any (fun field => toLowerStr field = "all") = false →
        (s ∈ determineResponseFields fields isThingsCreate ↔
          s ∈ fields.map toLowerStr)) := by
  refine ⟨fun isThingsCreate => by cases isThingsCreate <;> rfl, ?_, ?_⟩
  · intro fields isThingsCreate h
    have hlen : fields.length > 0 := by
      cases fields with
      | nil => cases h
      | cons a l => exact Nat.succ_pos _
    simp only [determineResponseFields]
    rw [if_pos hlen, if_pos h]
    cases isThingsCreate <;> rfl
  · intro fields isThingsCreate s hne h
    have hlen : fields.length > 0 := by
      cases fields with
      | nil => exact absurd rfl hne
      | cons a l => exact Nat.succ_pos _
    simp only [determineResponseFields]
    rw [if_pos hlen, if_neg (by simp [h])]
    rw [mem_foldl_mapInsert]
    simp [List.mem_map]

/-- Witness for C7: the "ALL" token is recognized case-insensitively for a
things batch, and an explicit list keeps exactly its lower-cased members. -/
theorem determineResponseFields_spec_witness :
    determineResponseFields ["AlL"] true = defaultFields true ∧
    ("key" ∈ determineResponseFields ["Key", "KEY"] false ↔
      "key" ∈ ["Key", "KEY"].map toLowerStr) :=
  ⟨determineResponseFields_spec.2.1 ["AlL"] true (by decide),
   determineResponseFields_spec.2.2 ["Key", "KEY"] false "key" (by decide) (by decide)⟩

/-- The loop that appends the conversion of every received peer builds the
map of the conversion. -/
theorem foldl_append_genesisPeerToPeer (paramsPeers : List GenesisPeer)
    (acc : List Peer) :
    paramsPeers.foldl (fun a genesisPeer => a ++ [genesisPeerToPeer genesisPeer]) acc =
      acc ++ paramsPeers.map genesisPeerToPeer := by
  induction paramsPeers generalizing acc with
  | nil => simp
  | cons hd tl ih => simp [List.foldl_cons, ih]

/-- C8: the peer-update handler converts every received entry, passes them
all to a single `UpdatePeers` call, and answers OK exactly when that call
returns no error (otherwise internal-server-error). -/
theorem genesis_update_handler_spec :
    ∀ (updatePeers : List Peer → Option String) (paramsPeers : List GenesisPeer),
      (p2pWeaviateP2pGenesisUpdateHandler updatePeers paramsPeers).updatePeersCalls =
        [paramsPeers.map genesisPeerToPeer] ∧
      ((p2pWeaviateP2pGenesisUpdateHandler updatePeers paramsPeers).response =
          GenesisUpdateResponse.ok ↔
        updatePeers (paramsPeers.map genesisPeerToPeer) = none) := by
  intro updatePeers paramsPeers
  have hfold : paramsPeers.foldl
      (fun a genesisPeer => a ++ [genesisPeerToPeer genesisPeer]) [] =
      paramsPeers.map genesisPeerToPeer := by
    simpa using foldl_append_genesisPeerToPeer paramsPeers []
  constructor
  · simp only [p2pWeaviateP2pGenesisUpdateHandler, hfold]
  · simp only [p2pWeaviateP2pGenesisUpdateHandler, hfold]
    cases h : updatePeers (paramsPeers.map genesisPeerToPeer) with
    | none => simp
    | some e => simp

/-- C9: `getLimit` never exceeds the configured environment limit; with a
per-request parameter it is the minimum of parameter and limit, without
one it is the limit itself. (The Go `float64`/`math.Min` round trip is
modelled as exact integer `min`.) -/
theorem getLimit_spec :
    (∀ (envLimit : Int) (paramMaxResults : Option Int),
        getLimit envLimit paramMaxResults ≤ envLimit) ∧
    (∀ (envLimit v : Int), getLimit envLimit (some v) = min v envLimit) ∧
    (∀ (envLimit : Int), getLimit envLimit none = envLimit) := by
  refine ⟨?_, fun envLimit v => rfl, fun envLimit => min_self envLimit⟩
  intro envLimit paramMaxResults
  cases paramMaxResults <;> simp [getLimit]

/-- C10: with a nil GraphQL provider, a batched sub-request with a
non-empty query panics in the per-request goroutine, while the non-batched
handler on the same query returns the unprocessable-entity error
response. -/
theorem nil_graphql_batched_panics_single_returns_422 :
    ∀ (requestIndex : Nat) (query : String), query ≠ "" →
      handleUnbatchedGraphQLRequest none requestIndex query =
        UnbatchedRequestOutcome.panicked "graphql is nil!" ∧
      graphqlWeaviateGraphqlPostHandler none query =
        GraphQLPostResponse.unprocessableEntity
          ["no graphql provider present, this is most likely because no schema is present. Import a schema first!"] := by
  intro requestIndex query hq
  constructor
  · simp [handleUnbatchedGraphQLRequest, hq]
  · simp [graphqlWeaviateGraphqlPostHandler, hq]

/-- Witness for C10: the concrete non-empty query `"x"`. -/
theorem nil_graphql_batched_panics_single_returns_422_witness :
    handleUnbatchedGraphQLRequest none 0 "x" =
      UnbatchedRequestOutcome.panicked "graphql is nil!" ∧
    graphqlWeaviateGraphqlPostHandler none "x" =
      GraphQLPostResponse.unprocessableEntity
        ["no graphql provider present, this is most likely because no schema is present. Import a schema first!"] :=
  nil_graphql_batched_panics_single_returns_422 0 "x" (by decide)

/-- C3 counterexample: with a previously-published provider (modelled by
`0 : Nat`) and a failing peer-list fetch, the callback publishes `none`:
it clears — rather than preserves — the prior derived state. -/
theorem schema_callback_untouched_counterexample :
    (schemaUpdateCallback (some 0) (Except.error "connection refused")
        (fun _ => Except.ok (1 : Nat))).graphQL = none ∧
    (none : Option Nat) ≠ some 0 :=
  ⟨rfl, by decide⟩

/-- C3 amended: when fetching the peer list fails, the schema-update
callback sets the published GraphQL provider to nil — discarding whatever
was published before — and logs exactly the failure; it never publishes a
state built from a partial peer view. -/
theorem schema_callback_peer_failure_clears_state :
    ∀ {G : Type} (priorGraphQL : Option G) (e : String)
      (build : List Peer → Except String G),
      (schemaUpdateCallback priorGraphQL (Except.error e) build).graphQL = none ∧
      (schemaUpdateCallback priorGraphQL (Except.error e) build).logs =
        [LogEvent.errorLogged
          ("could not list network peers to regenerate schema: " ++ e)] :=
  fun _ _ _ => ⟨rfl, rfl⟩

end Weaviate
